import Mathlib

/-!
Verification of the ownership-semantics core of `ferric_continuum`
(`src/ferric_continuum/foundation/`): the instrumented buffer owners
`ResourceManager` (constructor_rules.cc) and `LargeBuffer`
(move_semantics.cc), the move-only handles `MoveOnlyResource`
(constructor_rules.cc) and `FileGuard` (smart_pointers.cc), and the
shared-ownership `Resource` counting (smart_pointers.cc).

The embedding makes the C++ heap explicit: a heap maps addresses to
allocated blocks of `int` cells (a cell is `none` while uninitialized),
allocation hands out fresh addresses, and `delete[]` removes a block —
freeing an address that is not live models a double free and is an error
(`Option`-failure), while `delete[] nullptr` is a no-op, as in C++.
Process-wide instrumentation counters travel in the state next to the heap.
-/

namespace Ferric

/-- One heap cell of an `int[]` block: `none` models uninitialized memory. -/
abbrev Cell := Option Int

/-- An allocated `int[n]` block is a list of `n` cells. -/
abbrev Block := List Cell

/-- The heap: a map from addresses to live blocks plus a fresh-address
counter.  `new` always hands out `next`, so addresses are never reused. -/
structure Heap where
  mem : Nat → Option Block
  next : Nat

/-- The empty heap. -/
def Heap.empty : Heap := ⟨fun _ => none, 0⟩

/-- `new int[...]` with the given initial cells: the block is placed at the
fresh address `next`.  Returns the new heap and the address. -/
def Heap.alloc (h : Heap) (b : Block) : Heap × Nat :=
  (⟨Function.update h.mem h.next (some b), h.next + 1⟩, h.next)

/-- `delete[] p`: deleting the null pointer is a no-op; deleting a live
address removes its block; deleting anything else is a double/invalid free
(failure). -/
def Heap.free (h : Heap) : Option Nat → Option Heap
  | none => some h
  | some a =>
    match h.mem a with
    | some _ => some ⟨Function.update h.mem a none, h.next⟩
    | none => none

/-- Reading `size` cells starting at pointer `p` (the source loops
`for i < size: ... p[i]`).  A zero-length read touches no memory, so it
succeeds even on the null pointer; otherwise the pointer must be a live
block of at least `size` cells. -/
def Heap.readBlock (h : Heap) (p : Option Nat) (size : Nat) : Option Block :=
  if size = 0 then some []
  else
    match p with
    | none => none
    | some a =>
      match h.mem a with
      | none => none
      | some blk => if size ≤ blk.length then some (blk.take size) else none

/-- Writing value `v` to cells `0 .. size-1` of pointer `p` (the source
loops `for i < size: p[i] = v`).  A zero-length write touches no memory;
otherwise the pointer must be a live block of at least `size` cells. -/
def Heap.writeFill (h : Heap) (p : Option Nat) (size : Nat) (v : Int) :
    Option Heap :=
  if size = 0 then some h
  else
    match p with
    | none => none
    | some a =>
      match h.mem a with
      | none => none
      | some blk =>
        if size ≤ blk.length then
          some ⟨Function.update h.mem a
            (some (List.replicate size (some v) ++ blk.drop size)), h.next⟩
        else none

/-! ## LargeBuffer (move_semantics.cc / move_semantics.hh)

`class LargeBuffer { int* data_; size_t size_;
  static size_t copy_count_; static size_t move_count_; }` -/

/-- The process-wide `LargeBuffer` counters (`copy_count_`, `move_count_`). -/
structure LBStats where
  copy_count : Nat
  move_count : Nat
deriving DecidableEq

/-- The ambient state a `LargeBuffer` operation runs in: the heap plus the
static counters. -/
structure LBState where
  heap : Heap
  stats : LBStats

/-- A `LargeBuffer` object: its owned pointer (`data_`, `none` = `nullptr`)
and its length field (`size_`). -/
structure LargeBuffer where
  data : Option Nat
  size : Nat
deriving DecidableEq

/-- `LargeBuffer::LargeBuffer(size_t size) : data_(new int[size]), size_(size)`
then `for i < size: data_[i] = 0`.  Note the allocation happens even for
`size == 0` (a zero-length block at a fresh address). -/
def LargeBuffer.create (st : LBState) (size : Nat) : LBState × LargeBuffer :=
  let (h, a) := st.heap.alloc (List.replicate size (some 0))
  (⟨h, st.stats⟩, ⟨some a, size⟩)

/-- `LargeBuffer::LargeBuffer(const LargeBuffer& other)`:
`data_(new int[other.size_]), size_(other.size_)`, copy loop over
`other.data_[i]` for `i < size_`, then `++copy_count_`.  Fails only when the
copy loop would read through a dead or null pointer. -/
def LargeBuffer.copyCtor (st : LBState) (other : LargeBuffer) :
    Option (LBState × LargeBuffer) :=
  match st.heap.readBlock other.data other.size with
  | none => none
  | some src =>
    let (h, a) := st.heap.alloc src
    some (⟨h, ⟨st.stats.copy_count + 1, st.stats.move_count⟩⟩,
      ⟨some a, other.size⟩)

/-- `LargeBuffer::LargeBuffer(LargeBuffer&& other)`: steal `data_` and
`size_`, null out the source, `++move_count_`.  Returns
(state, new object, source after the move). -/
def LargeBuffer.moveCtor (st : LBState) (other : LargeBuffer) :
    LBState × LargeBuffer × LargeBuffer :=
  (⟨st.heap, ⟨st.stats.copy_count, st.stats.move_count + 1⟩⟩,
    ⟨other.data, other.size⟩, ⟨none, 0⟩)

/-- The `this != &other` branch of
`LargeBuffer& operator=(const LargeBuffer&)`: `delete[] data_`, reallocate
at `other.size_`, copy loop, `++copy_count_`.  Returns (state, dest after). -/
def LargeBuffer.copyAssignDistinct (st : LBState) (dest other : LargeBuffer) :
    Option (LBState × LargeBuffer) :=
  match st.heap.free dest.data with
  | none => none
  | some h =>
    match h.readBlock other.data other.size with
    | none => none
    | some src =>
      let (h2, a) := h.alloc src
      some (⟨h2, ⟨st.stats.copy_count + 1, st.stats.move_count⟩⟩,
        ⟨some a, other.size⟩)

/-- The `this != &other` branch of
`LargeBuffer& operator=(LargeBuffer&&)`: `delete[] data_`, steal the
source's pointer and size, null the source, `++move_count_`.  Returns
(state, dest after, source after). -/
def LargeBuffer.moveAssignDistinct (st : LBState) (dest other : LargeBuffer) :
    Option (LBState × LargeBuffer × LargeBuffer) :=
  match st.heap.free dest.data with
  | none => none
  | some h =>
    some (⟨h, ⟨st.stats.copy_count, st.stats.move_count + 1⟩⟩,
      ⟨other.data, other.size⟩, ⟨none, 0⟩)

/-- `LargeBuffer::~LargeBuffer()`: `delete[] data_`. -/
def LargeBuffer.destroy (st : LBState) (o : LargeBuffer) : Option LBState :=
  match st.heap.free o.data with
  | none => none
  | some h => some ⟨h, st.stats⟩

/-- `void LargeBuffer::fill(int value)`: `for i < size_: data_[i] = value`. -/
def LargeBuffer.fill (st : LBState) (o : LargeBuffer) (v : Int) :
    Option LBState :=
  match st.heap.writeFill o.data o.size v with
  | none => none
  | some h => some ⟨h, st.stats⟩

/-- `static void LargeBuffer::reset_counts()`. -/
def LBState.reset_counts (st : LBState) : LBState := ⟨st.heap, ⟨0, 0⟩⟩

/-- A store of `LargeBuffer` objects living at object slots, used to embed
the assignment operators, where the `this != &other` self-assignment guard
compares object identity (slot indices). -/
structure LBEnv where
  st : LBState
  objs : Nat → Option LargeBuffer

/-- `objs[i] = objs[j]` (copy assignment through object identities):
`if (this != &other) { delete[] data_; reallocate; copy; ++copy_count_ }`;
when `i = j` the guard makes it a complete no-op. -/
def LBEnv.copyAssign (e : LBEnv) (i j : Nat) : Option LBEnv :=
  if i = j then some e
  else
    match e.objs i, e.objs j with
    | some d, some s =>
      match LargeBuffer.copyAssignDistinct e.st d s with
      | none => none
      | some (st2, d2) => some ⟨st2, Function.update e.objs i (some d2)⟩
    | _, _ => none

/-- `objs[i] = std::move(objs[j])` (move assignment through object
identities): `if (this != &other) { delete[] data_; steal; null source;
++move_count_ }`; when `i = j` the guard makes it a complete no-op. -/
def LBEnv.moveAssign (e : LBEnv) (i j : Nat) : Option LBEnv :=
  if i = j then some e
  else
    match e.objs i, e.objs j with
    | some d, some s =>
      match LargeBuffer.moveAssignDistinct e.st d s with
      | none => none
      | some (st2, d2, s2) =>
        some ⟨st2,
          Function.update (Function.update e.objs i (some d2)) j (some s2)⟩
    | _, _ => none

/-! ## ResourceManager (constructor_rules.cc / constructor_rules.hh)

`class ResourceManager { int* data_; size_t size_;
  static int default_constructions_, copy_constructions_,
  move_constructions_, destructions_; }` -/

/-- The four process-wide `ResourceManager` counters. -/
structure RMStats where
  default_constructions : Nat
  copy_constructions : Nat
  move_constructions : Nat
  destructions : Nat
deriving DecidableEq

/-- `static void ResourceManager::reset_stats()` zeroes all four counters. -/
def RMStats.zero : RMStats := ⟨0, 0, 0, 0⟩

/-- The ambient state a `ResourceManager` operation runs in. -/
structure RMState where
  heap : Heap
  stats : RMStats

/-- A `ResourceManager` object: owned pointer (`data_`) and size (`size_`). -/
structure ResourceManager where
  data : Option Nat
  size : Nat
deriving DecidableEq

/-- `ResourceManager::ResourceManager(size_t size)`:
`data_(size > 0 ? new int[size] : nullptr), size_(size)` followed by
`std::fill(data_, data_ + size_, 0)` when `data_` is non-null; increments
`default_constructions_`. -/
def ResourceManager.create (st : RMState) (size : Nat) :
    RMState × ResourceManager :=
  if 0 < size then
    let (h, a) := st.heap.alloc (List.replicate size (some 0))
    (⟨h, { st.stats with
      default_constructions := st.stats.default_constructions + 1 }⟩,
      ⟨some a, size⟩)
  else
    (⟨st.heap, { st.stats with
      default_constructions := st.stats.default_constructions + 1 }⟩,
      ⟨none, size⟩)

/-- `ResourceManager::ResourceManager(const ResourceManager& other)`:
`data_(other.size_ > 0 ? new int[other.size_] : nullptr),
size_(other.size_)`; `std::copy` runs only `if (data_ && other.data_)`,
otherwise a positive-size allocation stays uninitialized; increments
`copy_constructions_`. -/
def ResourceManager.copyCtor (st : RMState) (other : ResourceManager) :
    Option (RMState × ResourceManager) :=
  if 0 < other.size then
    match other.data with
    | some _ =>
      match st.heap.readBlock other.data other.size with
      | none => none
      | some src =>
        let (h, a) := st.heap.alloc src
        some (⟨h, { st.stats with
          copy_constructions := st.stats.copy_constructions + 1 }⟩,
          ⟨some a, other.size⟩)
    | none =>
      let (h, a) := st.heap.alloc (List.replicate other.size none)
      some (⟨h, { st.stats with
        copy_constructions := st.stats.copy_constructions + 1 }⟩,
        ⟨some a, other.size⟩)
  else
    some (⟨st.heap, { st.stats with
      copy_constructions := st.stats.copy_constructions + 1 }⟩,
      ⟨none, other.size⟩)

/-- `ResourceManager::ResourceManager(ResourceManager&& other)`: steal
`data_`/`size_`, null out the source, increment `move_constructions_`.
Returns (state, new object, source after the move). -/
def ResourceManager.moveCtor (st : RMState) (other : ResourceManager) :
    RMState × ResourceManager × ResourceManager :=
  (⟨st.heap, { st.stats with
    move_constructions := st.stats.move_constructions + 1 }⟩,
    ⟨other.data, other.size⟩, ⟨none, 0⟩)

/-- The `this != &other` branch of
`ResourceManager& operator=(const ResourceManager&)`: `delete[] data_`,
reallocate at `other.size_`, conditional `std::copy`.  Note: unlike the
copy constructor, this operator updates no counter. -/
def ResourceManager.copyAssignDistinct (st : RMState)
    (dest other : ResourceManager) : Option (RMState × ResourceManager) :=
  match st.heap.free dest.data with
  | none => none
  | some h =>
    if 0 < other.size then
      match other.data with
      | some _ =>
        match h.readBlock other.data other.size with
        | none => none
        | some src =>
          let (h2, a) := h.alloc src
          some (⟨h2, st.stats⟩, ⟨some a, other.size⟩)
      | none =>
        let (h2, a) := h.alloc (List.replicate other.size none)
        some (⟨h2, st.stats⟩, ⟨some a, other.size⟩)
    else
      some (⟨h, st.stats⟩, ⟨none, other.size⟩)

/-- The `this != &other` branch of
`ResourceManager& operator=(ResourceManager&&)`: `delete[] data_`, steal the
source's pointer and size, null the source.  Updates no counter. -/
def ResourceManager.moveAssignDistinct (st : RMState)
    (dest other : ResourceManager) :
    Option (RMState × ResourceManager × ResourceManager) :=
  match st.heap.free dest.data with
  | none => none
  | some h =>
    some (⟨h, st.stats⟩, ⟨other.data, other.size⟩, ⟨none, 0⟩)

/-- `ResourceManager::~ResourceManager()`: `delete[] data_` and increment
`destructions_`. -/
def ResourceManager.destroy (st : RMState) (o : ResourceManager) :
    Option RMState :=
  match st.heap.free o.data with
  | none => none
  | some h =>
    some ⟨h, { st.stats with destructions := st.stats.destructions + 1 }⟩

/-- `static void ResourceManager::reset_stats()`. -/
def RMState.reset_stats (st : RMState) : RMState := ⟨st.heap, RMStats.zero⟩

/-- A store of `ResourceManager` objects at object slots, for the
assignment operators with their `this != &other` identity guard. -/
structure RMEnv where
  st : RMState
  objs : Nat → Option ResourceManager

/-- `objs[i] = objs[j]` (ResourceManager copy assignment):
self-assignment (`i = j`) is a guarded no-op. -/
def RMEnv.copyAssign (e : RMEnv) (i j : Nat) : Option RMEnv :=
  if i = j then some e
  else
    match e.objs i, e.objs j with
    | some d, some s =>
      match ResourceManager.copyAssignDistinct e.st d s with
      | none => none
      | some (st2, d2) => some ⟨st2, Function.update e.objs i (some d2)⟩
    | _, _ => none

/-- `objs[i] = std::move(objs[j])` (ResourceManager move assignment):
self-assignment (`i = j`) is a guarded no-op. -/
def RMEnv.moveAssign (e : RMEnv) (i j : Nat) : Option RMEnv :=
  if i = j then some e
  else
    match e.objs i, e.objs j with
    | some d, some s =>
      match ResourceManager.moveAssignDistinct e.st d s with
      | none => none
      | some (st2, d2, s2) =>
        some ⟨st2,
          Function.update (Function.update e.objs i (some d2)) j (some s2)⟩
    | _, _ => none

/-! ## MoveOnlyResource (constructor_rules.cc / constructor_rules.hh)

`class MoveOnlyResource { std::string name_; bool valid_; }` with both copy
operations `= delete`. -/

/-- A `MoveOnlyResource` object: `name_` and `valid_`. -/
structure MoveOnlyResource where
  name : String
  valid : Bool
deriving DecidableEq

/-- `MoveOnlyResource::MoveOnlyResource(const std::string& name)
: name_(name), valid_(true)`. -/
def MoveOnlyResource.create (name : String) : MoveOnlyResource :=
  ⟨name, true⟩

/-- `MoveOnlyResource::MoveOnlyResource(MoveOnlyResource&& other)`:
`name_(std::move(other.name_)), valid_(other.valid_)`, then
`other.valid_ = false`.  The moved-from `std::string` is modelled as empty.
Returns (new object, source after the move). -/
def MoveOnlyResource.moveCtor (other : MoveOnlyResource) :
    MoveOnlyResource × MoveOnlyResource :=
  (⟨other.name, other.valid⟩, ⟨"", false⟩)

/-- The `this != &other` branch of
`MoveOnlyResource& operator=(MoveOnlyResource&&)`: take the source's name
and validity, invalidate the source.  Returns (dest after, source after). -/
def MoveOnlyResource.moveAssignDistinct (_dest other : MoveOnlyResource) :
    MoveOnlyResource × MoveOnlyResource :=
  (⟨other.name, other.valid⟩, ⟨"", false⟩)

/-- `MoveOnlyResource::~MoveOnlyResource()`: `valid_ = false`. -/
def MoveOnlyResource.destroy (o : MoveOnlyResource) : MoveOnlyResource :=
  ⟨o.name, false⟩

/-! ## FileGuard (smart_pointers.cc / smart_pointers.hh)

`class FileGuard { std::string filename_; bool is_open_; }` with both copy
operations `= delete`.  `close()` stands for the release of the underlying
handle; its model additionally reports how many release actions (`fclose`
in real code) the call performed, so that idempotence is observable. -/

/-- A `FileGuard` object: `filename_` and `is_open_`. -/
structure FileGuard where
  filename : String
  is_open : Bool
deriving DecidableEq

/-- `FileGuard::FileGuard(const std::string& filename)
: filename_(filename), is_open_(true)`. -/
def FileGuard.acquire (filename : String) : FileGuard :=
  ⟨filename, true⟩

/-- `void FileGuard::close()`: `if (is_open_) { fclose; is_open_ = false }`.
The `Nat` component counts the release actions this call performed
(1 when the guard was open, 0 otherwise). -/
def FileGuard.close (g : FileGuard) : FileGuard × Nat :=
  if g.is_open then (⟨g.filename, false⟩, 1) else (g, 0)

/-- `FileGuard::FileGuard(FileGuard&& other)`:
`filename_(std::move(other.filename_)), is_open_(other.is_open_)`, then
`other.is_open_ = false`.  Returns (new object, source after the move). -/
def FileGuard.moveCtor (other : FileGuard) : FileGuard × FileGuard :=
  (⟨other.filename, other.is_open⟩, ⟨"", false⟩)

/-- `FileGuard::~FileGuard()`: `close()`.  Returns (dead object, number of
release actions performed). -/
def FileGuard.destroy (g : FileGuard) : FileGuard × Nat :=
  g.close

/-! ## Exclusive-handle operation sequences

A small machine over slots of move-only handles, for the invariant that a
single acquisition never has two valid live handles.  A slot holds
`some a` when the handle living there is valid for acquisition number `a`,
and `none` when it is invalid (default, moved-from, or released).  The
operation alphabet is exactly the capability set of `MoveOnlyResource` /
`FileGuard`: acquire, move-construct, move-assign, release — there is no
copy operation, mirroring the `= delete`d copy constructor and copy
assignment (constructor_rules.hh:63-64, smart_pointers.hh:73-74). -/

/-- The operations available on exclusive handles.  Note the absence of any
duplication operation. -/
inductive HandleOp where
  | acquire : HandleOp
  | move_new (i : Nat) : HandleOp
  | move_assign (i j : Nat) : HandleOp
  | release (i : Nat) : HandleOp

/-- The state of the exclusive-handle machine: validity of each slot,
the next fresh slot, and the next fresh acquisition number. -/
structure HandleSt where
  objs : Nat → Option Nat
  next_slot : Nat
  next_acq : Nat

/-- The initial handle state: no slots, no acquisitions. -/
def HandleSt.init : HandleSt := ⟨fun _ => none, 0, 0⟩

/-- One step of the exclusive-handle machine.
`acquire` constructs a fresh valid handle (`MoveOnlyResource(name)` /
`FileGuard(filename)`); `move_new i` move-constructs a fresh handle from
slot `i` (validity transfers, source invalidated); `move_assign i j` is
`objs[i] = std::move(objs[j])` with the `this != &other` self-move guard;
`release i` is the destructor (`valid_ = false` / `close()`).  Operations
naming slots that do not exist yet do nothing. -/
def HandleSt.step (st : HandleSt) : HandleOp → HandleSt
  | .acquire =>
    ⟨Function.update st.objs st.next_slot (some st.next_acq),
      st.next_slot + 1, st.next_acq + 1⟩
  | .move_new i =>
    if i < st.next_slot then
      ⟨Function.update (Function.update st.objs i none)
          st.next_slot (st.objs i),
        st.next_slot + 1, st.next_acq⟩
    else st
  | .move_assign i j =>
    if i = j then st
    else if i < st.next_slot ∧ j < st.next_slot then
      ⟨Function.update (Function.update st.objs i (st.objs j)) j none,
        st.next_slot, st.next_acq⟩
    else st
  | .release i =>
    ⟨Function.update st.objs i none, st.next_slot, st.next_acq⟩

/-- Run a sequence of exclusive-handle operations from the initial state. -/
def HandleSt.run (ops : List HandleOp) : HandleSt :=
  ops.foldl HandleSt.step HandleSt.init

/-! ## Shared ownership (smart_pointers.cc lines 51-74)

`Resource` counts live instances (`++instance_count_` in the constructor,
`--instance_count_` in the destructor); references to one shared resource
are `std::shared_ptr<Resource>` values.  The state below tracks the
process-wide instance counter together with the reference count of one
control block, following the standard `shared_ptr` semantics: copying a
reference increments the count, releasing decrements it, and the final
release runs `Resource::~Resource()`. -/

/-- The observable state of one shared resource: the process-wide
`Resource::instance_count_` and this resource's reference count
(`use_count`, 0 once destroyed). -/
structure SharedSt where
  instance_count : Int
  use_count : Nat
deriving DecidableEq

/-- `create_shared_resource(id)` starting from instance counter `n`:
`Resource::Resource` increments `instance_count_`, and the returned
`shared_ptr` has `use_count() == 1`. -/
def SharedSt.createShared (n : Int) : SharedSt := ⟨n + 1, 1⟩

/-- Duplicating one reference (copying the `shared_ptr`, as
`share_resource` does with `result.push_back(resource)`): the reference
count grows, the instance counter does not move. -/
def SharedSt.dupRef (st : SharedSt) : SharedSt :=
  ⟨st.instance_count, st.use_count + 1⟩

/-- Releasing one reference (a `shared_ptr` going out of scope): the last
release destroys the `Resource`, running `--instance_count_`; a release of
an already-empty state is a no-op. -/
def SharedSt.releaseRef (st : SharedSt) : SharedSt :=
  if st.use_count = 1 then ⟨st.instance_count - 1, 0⟩
  else if st.use_count = 0 then st
  else ⟨st.instance_count, st.use_count - 1⟩

/-- The three observability operations of the C8 scenario, acting on a
`ResourceManager` ambient state: construct a fresh instance, duplicate a
given source instance (copy constructor), transfer a given source instance
(move constructor). -/
inductive RMOp where
  | create_op (size : Nat) : RMOp
  | dup_op (src : ResourceManager) : RMOp
  | transfer_op (src : ResourceManager) : RMOp

/-- One operation applied to the ambient state (the produced or updated
objects themselves are not tracked further). -/
def RMState.stepOp (st : RMState) : RMOp → Option RMState
  | .create_op n => some (ResourceManager.create st n).1
  | .dup_op s => (ResourceManager.copyCtor st s).map Prod.fst
  | .transfer_op s => some (ResourceManager.moveCtor st s).1

/-- Run a list of observability operations left to right. -/
def RMState.runOps (st : RMState) : List RMOp → Option RMState
  | [] => some st
  | op :: rest =>
    match st.stepOp op with
    | none => none
    | some st2 => st2.runOps rest

/-- A well-formed duplication source: a live instance whose block really is
on the heap below the allocation point. -/
def RMState.GoodSrc (st : RMState) (a : ResourceManager) (p : Nat)
    (blk : Block) : Prop :=
  a.data = some p ∧ st.heap.mem p = some blk ∧ p < st.heap.next ∧
  a.size ≤ blk.length ∧ 0 < a.size

/-- The exclusive-handle invariant: no two distinct slots are valid for the
same acquisition, and every valid slot's acquisition number is in range. -/
def HandleSt.Inv (st : HandleSt) : Prop :=
  (∀ i j a, st.objs i = some a → st.objs j = some a → i = j) ∧
  (∀ i a, st.objs i = some a → a < st.next_acq)

/-! ## Heap frame lemmas -/

/-- A fresh allocation is visible at its own address. -/
theorem Heap.mem_alloc_self (h : Heap) (b : Block) :
    (h.alloc b).1.mem (h.alloc b).2 = some b := by
  simp [Heap.alloc]

/-- Allocation does not disturb other addresses. -/
theorem Heap.mem_alloc_of_ne (h : Heap) (b : Block) (p : Nat)
    (hp : p ≠ h.next) : (h.alloc b).1.mem p = h.mem p := by
  simp [Heap.alloc, Function.update_noteq hp]

/-- Allocation does not disturb addresses below the allocation point. -/
theorem Heap.mem_alloc_of_lt (h : Heap) (b : Block) (p : Nat)
    (hp : p < h.next) : (h.alloc b).1.mem p = h.mem p :=
  Heap.mem_alloc_of_ne h b p (Nat.ne_of_lt hp)

/-- The allocation point only grows. -/
theorem Heap.next_alloc (h : Heap) (b : Block) :
    (h.alloc b).1.next = h.next + 1 := rfl

/-- Freeing one pointer does not disturb a different address. -/
theorem Heap.mem_free_of_ne (h h2 : Heap) (a p : Nat) (hne : p ≠ a)
    (hf : h.free (some a) = some h2) : h2.mem p = h.mem p := by
  cases hmem : h.mem a with
  | none => simp only [Heap.free, hmem] at hf; cases hf
  | some blk =>
    simp only [Heap.free, hmem] at hf
    injection hf with hf
    subst hf
    simp [Function.update_noteq hne]

/-- Freeing a pointer keeps the allocation point. -/
theorem Heap.next_free (h h2 : Heap) (p : Option Nat)
    (hf : h.free p = some h2) : h2.next = h.next := by
  cases p with
  | none =>
    simp only [Heap.free] at hf
    injection hf with hf
    subst hf
    rfl
  | some a =>
    cases hmem : h.mem a with
    | none => simp only [Heap.free, hmem] at hf; cases hf
    | some blk =>
      simp only [Heap.free, hmem] at hf
      injection hf with hf
      subst hf
      rfl

/-- Freeing a live pointer succeeds and kills exactly that address. -/
theorem Heap.free_of_mem (h : Heap) (a : Nat) (blk : Block)
    (hmem : h.mem a = some blk) :
    h.free (some a) = some ⟨Function.update h.mem a none, h.next⟩ := by
  simp only [Heap.free, hmem]

/-! ## Claim theorems -/

/-- C1: transferring a buffer `a` (move construction) into `b` leaves `a`
in the empty/owning-nothing state (`size = 0`, no pointer) and gives `b`
the pre-transfer length and the very storage `a` owned — the heap is
untouched, `b` points at `a`'s old address, and that address still holds
the old contents.  Shown for `LargeBuffer` and for `ResourceManager`. -/
theorem c1_transfer_moves_storage
    (st : LBState) (a : LargeBuffer) (p : Nat) (C : Block)
    (hp : a.data = some p) (hC : st.heap.mem p = some C)
    (rst : RMState) (ra : ResourceManager) (q : Nat) (D : Block)
    (hq : ra.data = some q) (hD : rst.heap.mem q = some D) :
    ((LargeBuffer.moveCtor st a).2.2.size = 0 ∧
      (LargeBuffer.moveCtor st a).2.2.data = none ∧
      (LargeBuffer.moveCtor st a).2.1.size = a.size ∧
      (LargeBuffer.moveCtor st a).2.1.data = some p ∧
      (LargeBuffer.moveCtor st a).1.heap.mem p = some C) ∧
    ((ResourceManager.moveCtor rst ra).2.2.size = 0 ∧
      (ResourceManager.moveCtor rst ra).2.2.data = none ∧
      (ResourceManager.moveCtor rst ra).2.1.size = ra.size ∧
      (ResourceManager.moveCtor rst ra).2.1.data = some q ∧
      (ResourceManager.moveCtor rst ra).1.heap.mem q = some D) := by
  refine ⟨⟨rfl, rfl, rfl, ?_, ?_⟩, ⟨rfl, rfl, rfl, ?_, ?_⟩⟩
  · exact hp
  · exact hC
  · exact hq
  · exact hD

/-- C1 witness: a concrete length-2 `LargeBuffer` and length-3
`ResourceManager`, both created on the empty heap, are transferred. -/
theorem c1_witness :
    ((LargeBuffer.create ⟨Heap.empty, ⟨0, 0⟩⟩ 2).2.data = some 0 ∧
      (LargeBuffer.create ⟨Heap.empty, ⟨0, 0⟩⟩ 2).1.heap.mem 0 =
        some (List.replicate 2 (some 0)) ∧
      (ResourceManager.create ⟨Heap.empty, RMStats.zero⟩ 3).2.data = some 0 ∧
      (ResourceManager.create ⟨Heap.empty, RMStats.zero⟩ 3).1.heap.mem 0 =
        some (List.replicate 3 (some 0))) ∧
    ((LargeBuffer.moveCtor (LargeBuffer.create ⟨Heap.empty, ⟨0, 0⟩⟩ 2).1
        (LargeBuffer.create ⟨Heap.empty, ⟨0, 0⟩⟩ 2).2).2.2.size = 0 ∧
      (LargeBuffer.moveCtor (LargeBuffer.create ⟨Heap.empty, ⟨0, 0⟩⟩ 2).1
        (LargeBuffer.create ⟨Heap.empty, ⟨0, 0⟩⟩ 2).2).2.2.data = none ∧
      (LargeBuffer.moveCtor (LargeBuffer.create ⟨Heap.empty, ⟨0, 0⟩⟩ 2).1
        (LargeBuffer.create ⟨Heap.empty, ⟨0, 0⟩⟩ 2).2).2.1.size =
        (LargeBuffer.create ⟨Heap.empty, ⟨0, 0⟩⟩ 2).2.size ∧
      (LargeBuffer.moveCtor (LargeBuffer.create ⟨Heap.empty, ⟨0, 0⟩⟩ 2).1
        (LargeBuffer.create ⟨Heap.empty, ⟨0, 0⟩⟩ 2).2).2.1.data = some 0 ∧
      (LargeBuffer.moveCtor (LargeBuffer.create ⟨Heap.empty, ⟨0, 0⟩⟩ 2).1
        (LargeBuffer.create ⟨Heap.empty, ⟨0, 0⟩⟩ 2).2).1.heap.mem 0 =
        some (List.replicate 2 (some 0))) ∧
    ((ResourceManager.moveCtor
        (ResourceManager.create ⟨Heap.empty, RMStats.zero⟩ 3).1
        (ResourceManager.create ⟨Heap.empty, RMStats.zero⟩ 3).2).2.2.size = 0 ∧
      (ResourceManager.moveCtor
        (ResourceManager.create ⟨Heap.empty, RMStats.zero⟩ 3).1
        (ResourceManager.create ⟨Heap.empty, RMStats.zero⟩ 3).2).2.2.data =
        none ∧
      (ResourceManager.moveCtor
        (ResourceManager.create ⟨Heap.empty, RMStats.zero⟩ 3).1
        (ResourceManager.create ⟨Heap.empty, RMStats.zero⟩ 3).2).2.1.size =
        (ResourceManager.create ⟨Heap.empty, RMStats.zero⟩ 3).2.size ∧
      (ResourceManager.moveCtor
        (ResourceManager.create ⟨Heap.empty, RMStats.zero⟩ 3).1
        (ResourceManager.create ⟨Heap.empty, RMStats.zero⟩ 3).2).2.1.data =
        some 0 ∧
      (ResourceManager.moveCtor
        (ResourceManager.create ⟨Heap.empty, RMStats.zero⟩ 3).1
        (ResourceManager.create ⟨Heap.empty, RMStats.zero⟩ 3).2).1.heap.mem 0 =
        some (List.replicate 3 (some 0))) :=
  ⟨⟨rfl, rfl, rfl, rfl⟩,
    c1_transfer_moves_storage
      (LargeBuffer.create ⟨Heap.empty, ⟨0, 0⟩⟩ 2).1
      (LargeBuffer.create ⟨Heap.empty, ⟨0, 0⟩⟩ 2).2 0
      (List.replicate 2 (some 0)) rfl rfl
      (ResourceManager.create ⟨Heap.empty, RMStats.zero⟩ 3).1
      (ResourceManager.create ⟨Heap.empty, RMStats.zero⟩ 3).2 0
      (List.replicate 3 (some 0)) rfl rfl⟩

/-- Writing through one live pointer does not disturb any other address. -/
theorem Heap.writeFill_frame (h : Heap) (op : Nat) (blko : Block)
    (size : Nat) (v : Int) (hmo : h.mem op = some blko)
    (hsz : size ≤ blko.length) (p2 : Nat) (hne : p2 ≠ op) :
    ∃ h3, h.writeFill (some op) size v = some h3 ∧ h3.mem p2 = h.mem p2 := by
  by_cases h0 : size = 0
  · exact ⟨h, by simp [Heap.writeFill, h0], rfl⟩
  · refine ⟨⟨Function.update h.mem op
      (some (List.replicate size (some v) ++ blko.drop size)), h.next⟩,
      ?_, ?_⟩
    · simp [Heap.writeFill, h0, hmo, hsz]
    · simp [Function.update_noteq hne]

/-- Filling one buffer does not disturb any other address. -/
theorem LargeBuffer.fill_frame (st : LBState) (o : LargeBuffer) (v : Int)
    (op : Nat) (blko : Block) (ho : o.data = some op)
    (hmo : st.heap.mem op = some blko) (hsz : o.size ≤ blko.length)
    (p2 : Nat) (hne : p2 ≠ op) :
    ∃ st3, LargeBuffer.fill st o v = some st3 ∧
      st3.heap.mem p2 = st.heap.mem p2 := by
  obtain ⟨h3, hw, hm⟩ :=
    Heap.writeFill_frame st.heap op blko o.size v hmo hsz p2 hne
  refine ⟨⟨h3, st.stats⟩, ?_, hm⟩
  rw [LargeBuffer.fill, ho, hw]

/-- C3: duplication (copy construction) produces a buffer of the same
length with element-wise equal contents in distinct, independent storage:
the copy lives at a fresh address, both addresses hold the same block right
after the copy, and filling either buffer afterwards leaves the other
buffer's contents untouched.  Shown for `LargeBuffer` (with its `fill`
mutator) and for `ResourceManager` (mutation through the raw `data()`
pointer, i.e. a direct heap write). -/
theorem c3_duplicate_independent
    (st : LBState) (a : LargeBuffer) (p : Nat) (blk : Block)
    (hwf : ∀ r, st.heap.next ≤ r → st.heap.mem r = none)
    (hp : a.data = some p) (hblk : st.heap.mem p = some blk)
    (hsz : a.size = blk.length) (hpos : 0 < a.size)
    (rst : RMState) (ra : ResourceManager) (q : Nat) (rblk : Block)
    (rwf : ∀ r, rst.heap.next ≤ r → rst.heap.mem r = none)
    (hq : ra.data = some q) (hrblk : rst.heap.mem q = some rblk)
    (rsz : ra.size = rblk.length) (rpos : 0 < ra.size) :
    (∃ st2 b, LargeBuffer.copyCtor st a = some (st2, b) ∧
      b.size = a.size ∧
      b.data = some st.heap.next ∧ p ≠ st.heap.next ∧
      st2.heap.mem st.heap.next = some blk ∧ st2.heap.mem p = some blk ∧
      (∀ v, ∃ st3, LargeBuffer.fill st2 b v = some st3 ∧
        st3.heap.mem p = some blk) ∧
      (∀ v, ∃ st3, LargeBuffer.fill st2 a v = some st3 ∧
        st3.heap.mem st.heap.next = some blk)) ∧
    (∃ rst2 rb, ResourceManager.copyCtor rst ra = some (rst2, rb) ∧
      rb.size = ra.size ∧
      rb.data = some rst.heap.next ∧ q ≠ rst.heap.next ∧
      rst2.heap.mem rst.heap.next = some rblk ∧
      rst2.heap.mem q = some rblk ∧
      (∀ v, ∃ h3, Heap.writeFill rst2.heap rb.data rb.size v = some h3 ∧
        h3.mem q = some rblk) ∧
      (∀ v, ∃ h3, Heap.writeFill rst2.heap ra.data ra.size v = some h3 ∧
        h3.mem rst.heap.next = some rblk)) := by
  have hplt : p < st.heap.next := by
    by_contra hcon
    push_neg at hcon
    rw [hwf p hcon] at hblk
    cases hblk
  have hqlt : q < rst.heap.next := by
    by_contra hcon
    push_neg at hcon
    rw [rwf q hcon] at hrblk
    cases hrblk
  have hread : st.heap.readBlock a.data a.size = some blk := by
    rw [hp]
    simp [Heap.readBlock, hblk, hsz, Nat.pos_iff_ne_zero.mp (hsz ▸ hpos)]
  have rread : rst.heap.readBlock ra.data ra.size = some rblk := by
    rw [hq]
    simp [Heap.readBlock, hrblk, rsz, Nat.pos_iff_ne_zero.mp (rsz ▸ rpos)]
  constructor
  · refine ⟨⟨(st.heap.alloc blk).1,
      ⟨st.stats.copy_count + 1, st.stats.move_count⟩⟩,
      ⟨some st.heap.next, a.size⟩, ?_, rfl, rfl, Nat.ne_of_lt hplt,
      ?_, ?_, ?_, ?_⟩
    · rw [LargeBuffer.copyCtor, hread]
      rfl
    · simp [Heap.alloc]
    · simp [Heap.alloc, Function.update_noteq (Nat.ne_of_lt hplt), hblk]
    · intro v
      obtain ⟨st3, hf, hm⟩ := LargeBuffer.fill_frame
        ⟨(st.heap.alloc blk).1,
          ⟨st.stats.copy_count + 1, st.stats.move_count⟩⟩
        ⟨some st.heap.next, a.size⟩ v st.heap.next blk rfl
        (by simp [Heap.alloc]) (le_of_eq hsz) p (Nat.ne_of_lt hplt)
      refine ⟨st3, hf, ?_⟩
      rw [hm]
      simp [Heap.alloc, Function.update_noteq (Nat.ne_of_lt hplt), hblk]
    · intro v
      obtain ⟨st3, hf, hm⟩ := LargeBuffer.fill_frame
        ⟨(st.heap.alloc blk).1,
          ⟨st.stats.copy_count + 1, st.stats.move_count⟩⟩
        a v p blk hp
        (by simp [Heap.alloc, Function.update_noteq (Nat.ne_of_lt hplt),
          hblk])
        (le_of_eq hsz) st.heap.next (Nat.ne_of_lt hplt).symm
      refine ⟨st3, hf, ?_⟩
      rw [hm]
      simp [Heap.alloc]
  · refine ⟨⟨(rst.heap.alloc rblk).1, { rst.stats with
      copy_constructions := rst.stats.copy_constructions + 1 }⟩,
      ⟨some rst.heap.next, ra.size⟩, ?_, rfl, rfl, Nat.ne_of_lt hqlt,
      ?_, ?_, ?_, ?_⟩
    · rw [ResourceManager.copyCtor, if_pos rpos, hq]
      rw [hq] at rread
      rw [rread]
      rfl
    · simp [Heap.alloc]
    · simp [Heap.alloc, Function.update_noteq (Nat.ne_of_lt hqlt), hrblk]
    · intro v
      obtain ⟨h3, hw, hm⟩ := Heap.writeFill_frame (rst.heap.alloc rblk).1
        rst.heap.next rblk ra.size v (by simp [Heap.alloc])
        (le_of_eq rsz) q (Nat.ne_of_lt hqlt)
      refine ⟨h3, hw, ?_⟩
      rw [hm]
      simp [Heap.alloc, Function.update_noteq (Nat.ne_of_lt hqlt), hrblk]
    · intro v
      rw [hq]
      obtain ⟨h3, hw, hm⟩ := Heap.writeFill_frame (rst.heap.alloc rblk).1
        q rblk ra.size v
        (by simp [Heap.alloc, Function.update_noteq (Nat.ne_of_lt hqlt),
          hrblk])
        (le_of_eq rsz) rst.heap.next (Nat.ne_of_lt hqlt).symm
      refine ⟨h3, hw, ?_⟩
      rw [hm]
      simp [Heap.alloc]

/-- C3 witness: duplicating a concrete length-2 `LargeBuffer` and a
concrete length-3 `ResourceManager`, both freshly created on the empty
heap. -/
theorem c3_witness :
    (∃ st2 b,
      LargeBuffer.copyCtor (LargeBuffer.create ⟨Heap.empty, ⟨0, 0⟩⟩ 2).1
        (LargeBuffer.create ⟨Heap.empty, ⟨0, 0⟩⟩ 2).2 = some (st2, b) ∧
      b.size = (LargeBuffer.create ⟨Heap.empty, ⟨0, 0⟩⟩ 2).2.size ∧
      b.data = some (LargeBuffer.create ⟨Heap.empty, ⟨0, 0⟩⟩ 2).1.heap.next ∧
      0 ≠ (LargeBuffer.create ⟨Heap.empty, ⟨0, 0⟩⟩ 2).1.heap.next ∧
      st2.heap.mem (LargeBuffer.create ⟨Heap.empty, ⟨0, 0⟩⟩ 2).1.heap.next =
        some (List.replicate 2 (some 0)) ∧
      st2.heap.mem 0 = some (List.replicate 2 (some 0)) ∧
      (∀ v, ∃ st3, LargeBuffer.fill st2 b v = some st3 ∧
        st3.heap.mem 0 = some (List.replicate 2 (some 0))) ∧
      (∀ v, ∃ st3, LargeBuffer.fill st2
          (LargeBuffer.create ⟨Heap.empty, ⟨0, 0⟩⟩ 2).2 v = some st3 ∧
        st3.heap.mem
          (LargeBuffer.create ⟨Heap.empty, ⟨0, 0⟩⟩ 2).1.heap.next =
          some (List.replicate 2 (some 0)))) ∧
    (∃ rst2 rb,
      ResourceManager.copyCtor
        (ResourceManager.create ⟨Heap.empty, RMStats.zero⟩ 3).1
        (ResourceManager.create ⟨Heap.empty, RMStats.zero⟩ 3).2 =
        some (rst2, rb) ∧
      rb.size = (ResourceManager.create ⟨Heap.empty, RMStats.zero⟩ 3).2.size ∧
      rb.data =
        some (ResourceManager.create ⟨Heap.empty,
          RMStats.zero⟩ 3).1.heap.next ∧
      0 ≠ (ResourceManager.create ⟨Heap.empty, RMStats.zero⟩ 3).1.heap.next ∧
      rst2.heap.mem
        (ResourceManager.create ⟨Heap.empty, RMStats.zero⟩ 3).1.heap.next =
        some (List.replicate 3 (some 0)) ∧
      rst2.heap.mem 0 = some (List.replicate 3 (some 0)) ∧
      (∀ v, ∃ h3, Heap.writeFill rst2.heap rb.data rb.size v = some h3 ∧
        h3.mem 0 = some (List.replicate 3 (some 0))) ∧
      (∀ v, ∃ h3, Heap.writeFill rst2.heap
          (ResourceManager.create ⟨Heap.empty, RMStats.zero⟩ 3).2.data
          (ResourceManager.create ⟨Heap.empty, RMStats.zero⟩ 3).2.size v =
          some h3 ∧
        h3.mem
          (ResourceManager.create ⟨Heap.empty, RMStats.zero⟩ 3).1.heap.next =
          some (List.replicate 3 (some 0)))) :=
  c3_duplicate_independent
    (LargeBuffer.create ⟨Heap.empty, ⟨0, 0⟩⟩ 2).1
    (LargeBuffer.create ⟨Heap.empty, ⟨0, 0⟩⟩ 2).2 0
    (List.replicate 2 (some 0))
    (by
      intro r hr
      have h1 : 1 ≤ r := hr
      show Function.update (fun _ => (none : Option Block)) 0
        (some (List.replicate 2 ((some 0 : Cell)))) r = none
      exact Function.update_noteq (by omega) _ _)
    rfl rfl rfl (by decide)
    (ResourceManager.create ⟨Heap.empty, RMStats.zero⟩ 3).1
    (ResourceManager.create ⟨Heap.empty, RMStats.zero⟩ 3).2 0
    (List.replicate 3 (some 0))
    (by
      intro r hr
      have h1 : 1 ≤ r := hr
      show Function.update (fun _ => (none : Option Block)) 0
        (some (List.replicate 3 ((some 0 : Cell)))) r = none
      exact Function.update_noteq (by omega) _ _)
    rfl rfl rfl (by decide)

/-- C5: for a valid exclusive handle `src` with name `N`, a transfer (move
construction, move assignment to a distinct handle) makes the source
invalid and the destination valid with name `N`.  Shown for
`MoveOnlyResource` and for `FileGuard`. -/
theorem c5_transfer_validity (src : MoveOnlyResource) (h : src.valid = true)
    (dest : MoveOnlyResource) (g : FileGuard) (hg : g.is_open = true) :
    ((MoveOnlyResource.moveCtor src).1.valid = true ∧
      (MoveOnlyResource.moveCtor src).1.name = src.name ∧
      (MoveOnlyResource.moveCtor src).2.valid = false) ∧
    ((MoveOnlyResource.moveAssignDistinct dest src).1.valid = true ∧
      (MoveOnlyResource.moveAssignDistinct dest src).1.name = src.name ∧
      (MoveOnlyResource.moveAssignDistinct dest src).2.valid = false) ∧
    ((FileGuard.moveCtor g).1.is_open = true ∧
      (FileGuard.moveCtor g).1.filename = g.filename ∧
      (FileGuard.moveCtor g).2.is_open = false) :=
  ⟨⟨h, rfl, rfl⟩, ⟨h, rfl, rfl⟩, ⟨hg, rfl, rfl⟩⟩

/-- C5 witness: concrete handles named "res" and "file". -/
theorem c5_witness :
    ((MoveOnlyResource.create "res").valid = true ∧
      (FileGuard.acquire "file").is_open = true) ∧
    ((MoveOnlyResource.moveCtor (MoveOnlyResource.create "res")).1.valid =
        true ∧
      (MoveOnlyResource.moveCtor (MoveOnlyResource.create "res")).1.name =
        (MoveOnlyResource.create "res").name ∧
      (MoveOnlyResource.moveCtor (MoveOnlyResource.create "res")).2.valid =
        false) ∧
    ((MoveOnlyResource.moveAssignDistinct ⟨"dst", true⟩
        (MoveOnlyResource.create "res")).1.valid = true ∧
      (MoveOnlyResource.moveAssignDistinct ⟨"dst", true⟩
        (MoveOnlyResource.create "res")).1.name =
        (MoveOnlyResource.create "res").name ∧
      (MoveOnlyResource.moveAssignDistinct ⟨"dst", true⟩
        (MoveOnlyResource.create "res")).2.valid = false) ∧
    ((FileGuard.moveCtor (FileGuard.acquire "file")).1.is_open = true ∧
      (FileGuard.moveCtor (FileGuard.acquire "file")).1.filename =
        (FileGuard.acquire "file").filename ∧
      (FileGuard.moveCtor (FileGuard.acquire "file")).2.is_open = false) :=
  ⟨⟨rfl, rfl⟩,
    c5_transfer_validity (MoveOnlyResource.create "res") rfl
      ⟨"dst", true⟩ (FileGuard.acquire "file") rfl⟩

/-- A list permutation of three fixed elements is one of the six explicit
orders. -/
theorem perm3_cases {α : Type} {x y z : α} {l : List α}
    (h : l.Perm [x, y, z]) :
    l = [x, y, z] ∨ l = [y, x, z] ∨ l = [y, z, x] ∨ l = [x, z, y] ∨
    l = [z, x, y] ∨ l = [z, y, x] := by
  have hm : l ∈ List.permutations' [x, y, z] := List.mem_permutations'.2 h
  have he : List.permutations' [x, y, z] =
      [[x, y, z], [y, x, z], [y, z, x], [x, z, y], [z, x, y], [z, y, x]] :=
    rfl
  rw [he] at hm
  simpa using hm

/-- A create step succeeds, bumps exactly the construction counter, and
preserves well-formed duplication sources. -/
theorem RMState.create_effect (st : RMState) (n : Nat) :
    ∃ st2, RMState.stepOp st (RMOp.create_op n) = some st2 ∧
      st2.stats = { st.stats with
        default_constructions := st.stats.default_constructions + 1 } ∧
      ∀ a p blk, RMState.GoodSrc st a p blk →
        RMState.GoodSrc st2 a p blk := by
  by_cases hn : 0 < n
  · refine ⟨⟨(st.heap.alloc (List.replicate n (some 0))).1,
      { st.stats with
        default_constructions := st.stats.default_constructions + 1 }⟩,
      ?_, rfl, ?_⟩
    · simp only [RMState.stepOp, ResourceManager.create, if_pos hn]
    · rintro a p blk ⟨h1, h2, h3, h4, h5⟩
      refine ⟨h1, ?_, ?_, h4, h5⟩
      · rw [Heap.mem_alloc_of_lt _ _ _ h3]
        exact h2
      · rw [Heap.next_alloc]
        omega
  · refine ⟨⟨st.heap, { st.stats with
      default_constructions := st.stats.default_constructions + 1 }⟩,
      ?_, rfl, ?_⟩
    · simp only [RMState.stepOp, ResourceManager.create, if_neg hn]
    · rintro a p blk h
      exact h

/-- A transfer step succeeds, bumps exactly the transfer counter, does not
touch the heap, and preserves well-formed duplication sources. -/
theorem RMState.transfer_effect (st : RMState) (s : ResourceManager) :
    ∃ st2, RMState.stepOp st (RMOp.transfer_op s) = some st2 ∧
      st2.stats = { st.stats with
        move_constructions := st.stats.move_constructions + 1 } ∧
      ∀ a p blk, RMState.GoodSrc st a p blk →
        RMState.GoodSrc st2 a p blk :=
  ⟨⟨st.heap, { st.stats with
      move_constructions := st.stats.move_constructions + 1 }⟩,
    rfl, rfl, fun _ _ _ h => h⟩

/-- A duplication step on a well-formed source succeeds and bumps exactly
the duplication counter. -/
theorem RMState.dup_effect (st : RMState) (a : ResourceManager) (p : Nat)
    (blk : Block) (h : RMState.GoodSrc st a p blk) :
    ∃ st2, RMState.stepOp st (RMOp.dup_op a) = some st2 ∧
      st2.stats = { st.stats with
        copy_constructions := st.stats.copy_constructions + 1 } := by
  obtain ⟨h1, h2, _h3, h4, h5⟩ := h
  have hread : st.heap.readBlock (some p) a.size =
      some (blk.take a.size) := by
    simp [Heap.readBlock, h2, h4, Nat.pos_iff_ne_zero.mp h5]
  refine ⟨⟨(st.heap.alloc (blk.take a.size)).1,
    { st.stats with
      copy_constructions := st.stats.copy_constructions + 1 }⟩, ?_, rfl⟩
  simp only [RMState.stepOp, ResourceManager.copyCtor, if_pos h5, h1, hread]
  rfl

/-- C8: after `reset_stats`, one create, one duplicate and one transfer on
independent instances yield the counters (construction, duplication,
transfer) = (1, 1, 1) — deterministically, for every interleaving order of
the three operations. -/
theorem c8_counters_order_independent (st : RMState) (n : Nat)
    (a b : ResourceManager) (p : Nat) (blk : Block)
    (hgood : RMState.GoodSrc st a p blk) (ops : List RMOp)
    (hperm : ops.Perm
      [RMOp.create_op n, RMOp.dup_op a, RMOp.transfer_op b]) :
    ∃ st2, RMState.runOps st.reset_stats ops = some st2 ∧
      st2.stats = ⟨1, 1, 1, 0⟩ := by
  have hg0 : RMState.GoodSrc st.reset_stats a p blk := hgood
  rcases perm3_cases hperm with hl | hl | hl | hl | hl | hl <;> subst hl
  · obtain ⟨st1, e1, f1, g1⟩ := RMState.create_effect st.reset_stats n
    obtain ⟨st2, e2, f2⟩ := RMState.dup_effect st1 a p blk (g1 a p blk hg0)
    obtain ⟨st3, e3, f3, _⟩ := RMState.transfer_effect st2 b
    refine ⟨st3, ?_, ?_⟩
    · simp [RMState.runOps, e1, e2, e3]
    · rw [f3, f2, f1]
      rfl
  · obtain ⟨st1, e1, f1⟩ := RMState.dup_effect st.reset_stats a p blk hg0
    obtain ⟨st2, e2, f2, _⟩ := RMState.create_effect st1 n
    obtain ⟨st3, e3, f3, _⟩ := RMState.transfer_effect st2 b
    refine ⟨st3, ?_, ?_⟩
    · simp [RMState.runOps, e1, e2, e3]
    · rw [f3, f2, f1]
      rfl
  · obtain ⟨st1, e1, f1⟩ := RMState.dup_effect st.reset_stats a p blk hg0
    obtain ⟨st2, e2, f2, _⟩ := RMState.transfer_effect st1 b
    obtain ⟨st3, e3, f3, _⟩ := RMState.create_effect st2 n
    refine ⟨st3, ?_, ?_⟩
    · simp [RMState.runOps, e1, e2, e3]
    · rw [f3, f2, f1]
      rfl
  · obtain ⟨st1, e1, f1, g1⟩ := RMState.create_effect st.reset_stats n
    obtain ⟨st2, e2, f2, g2⟩ := RMState.transfer_effect st1 b
    obtain ⟨st3, e3, f3⟩ := RMState.dup_effect st2 a p blk
      (g2 a p blk (g1 a p blk hg0))
    refine ⟨st3, ?_, ?_⟩
    · simp [RMState.runOps, e1, e2, e3]
    · rw [f3, f2, f1]
      rfl
  · obtain ⟨st1, e1, f1, g1⟩ := RMState.transfer_effect st.reset_stats b
    obtain ⟨st2, e2, f2, g2⟩ := RMState.create_effect st1 n
    obtain ⟨st3, e3, f3⟩ := RMState.dup_effect st2 a p blk
      (g2 a p blk (g1 a p blk hg0))
    refine ⟨st3, ?_, ?_⟩
    · simp [RMState.runOps, e1, e2, e3]
    · rw [f3, f2, f1]
      rfl
  · obtain ⟨st1, e1, f1, g1⟩ := RMState.transfer_effect st.reset_stats b
    obtain ⟨st2, e2, f2⟩ := RMState.dup_effect st1 a p blk
      (g1 a p blk hg0)
    obtain ⟨st3, e3, f3, _⟩ := RMState.create_effect st2 n
    refine ⟨st3, ?_, ?_⟩
    · simp [RMState.runOps, e1, e2, e3]
    · rw [f3, f2, f1]
      rfl

/-- C8 witness: two concrete instances (lengths 2 and 3) on the empty
heap; reset followed by create/duplicate/transfer in one concrete order. -/
theorem c8_witness :
    ∃ st2, RMState.runOps
      (ResourceManager.create
        (ResourceManager.create ⟨Heap.empty, RMStats.zero⟩ 2).1
        3).1.reset_stats
      [RMOp.create_op 1,
        RMOp.dup_op (ResourceManager.create ⟨Heap.empty, RMStats.zero⟩ 2).2,
        RMOp.transfer_op (ResourceManager.create
          (ResourceManager.create ⟨Heap.empty, RMStats.zero⟩ 2).1 3).2] =
      some st2 ∧ st2.stats = ⟨1, 1, 1, 0⟩ :=
  c8_counters_order_independent
    (ResourceManager.create
      (ResourceManager.create ⟨Heap.empty, RMStats.zero⟩ 2).1 3).1
    1 (ResourceManager.create ⟨Heap.empty, RMStats.zero⟩ 2).2
    (ResourceManager.create
      (ResourceManager.create ⟨Heap.empty, RMStats.zero⟩ 2).1 3).2
    0 (List.replicate 2 (some 0))
    ⟨rfl, rfl, by decide, by decide, by decide⟩
    _ (List.Perm.refl _)

/-- C9 counterexample: a concrete run in which `ResourceManager`'s
assignment operators leave every counter untouched.  After a reset and two
constructions, copy-assigning one instance from the other leaves
`copy_constructions_` at 0 (not 1), and move-assigning leaves
`move_constructions_` at 0 (not 1): the claim that the assignment forms
increment the duplication/transfer counters is false for
`ResourceManager`. -/
theorem c9_counterexample :
    (ResourceManager.copyAssignDistinct
      (ResourceManager.create
        (ResourceManager.create ⟨Heap.empty, RMStats.zero⟩ 1).1 1).1
      (ResourceManager.create
        (ResourceManager.create ⟨Heap.empty, RMStats.zero⟩ 1).1 1).2
      (ResourceManager.create ⟨Heap.empty, RMStats.zero⟩ 1).2).map
      (fun r => r.1.stats.copy_constructions) = some 0 ∧
    (ResourceManager.copyAssignDistinct
      (ResourceManager.create
        (ResourceManager.create ⟨Heap.empty, RMStats.zero⟩ 1).1 1).1
      (ResourceManager.create
        (ResourceManager.create ⟨Heap.empty, RMStats.zero⟩ 1).1 1).2
      (ResourceManager.create ⟨Heap.empty, RMStats.zero⟩ 1).2).map
      (fun r => r.1.stats.copy_constructions) ≠ some 1 ∧
    (ResourceManager.moveAssignDistinct
      (ResourceManager.create
        (ResourceManager.create ⟨Heap.empty, RMStats.zero⟩ 1).1 1).1
      (ResourceManager.create
        (ResourceManager.create ⟨Heap.empty, RMStats.zero⟩ 1).1 1).2
      (ResourceManager.create ⟨Heap.empty, RMStats.zero⟩ 1).2).map
      (fun r => r.1.stats.move_constructions) = some 0 ∧
    (ResourceManager.moveAssignDistinct
      (ResourceManager.create
        (ResourceManager.create ⟨Heap.empty, RMStats.zero⟩ 1).1 1).1
      (ResourceManager.create
        (ResourceManager.create ⟨Heap.empty, RMStats.zero⟩ 1).1 1).2
      (ResourceManager.create ⟨Heap.empty, RMStats.zero⟩ 1).2).map
      (fun r => r.1.stats.move_constructions) ≠ some 1 := by
  refine ⟨?_, ?_, ?_, ?_⟩ <;> decide

/-- C9 amended: for distinct `LargeBuffer` objects the assignment forms do
update the counters — copy assignment increments `copy_count_` by exactly
one and move assignment increments `move_count_` by exactly one, each after
releasing the buffer the destination previously owned; for distinct
`ResourceManager` objects, however, both assignment operators release and
reacquire but update no counter at all (its counters track constructions
only). -/
theorem c9_amended_assignment_counters
    (lst : LBState) (ldest lsrc : LargeBuffer) (lpd lp : Nat)
    (lblkd lblk : Block)
    (hld : ldest.data = some lpd) (hlmd : lst.heap.mem lpd = some lblkd)
    (hlpdlt : lpd < lst.heap.next)
    (hls : lsrc.data = some lp) (hlms : lst.heap.mem lp = some lblk)
    (hlsz : lsrc.size ≤ lblk.length) (hlpos : 0 < lsrc.size)
    (hlne : lp ≠ lpd)
    (st : RMState) (dest src : ResourceManager) (pd p : Nat)
    (blkd blk : Block)
    (hd : dest.data = some pd) (hmd : st.heap.mem pd = some blkd)
    (hpdlt : pd < st.heap.next)
    (hs : src.data = some p) (hms : st.heap.mem p = some blk)
    (hsz : src.size ≤ blk.length) (hpos : 0 < src.size)
    (hne : p ≠ pd) :
    (∃ st2 d2,
      LargeBuffer.copyAssignDistinct lst ldest lsrc = some (st2, d2) ∧
      st2.stats.copy_count = lst.stats.copy_count + 1 ∧
      st2.stats.move_count = lst.stats.move_count ∧
      st2.heap.mem lpd = none) ∧
    (∃ st2 d2 s2,
      LargeBuffer.moveAssignDistinct lst ldest lsrc = some (st2, d2, s2) ∧
      st2.stats.move_count = lst.stats.move_count + 1 ∧
      st2.stats.copy_count = lst.stats.copy_count ∧
      st2.heap.mem lpd = none) ∧
    (∃ st2 d2,
      ResourceManager.copyAssignDistinct st dest src = some (st2, d2) ∧
      st2.stats = st.stats ∧ st2.heap.mem pd = none) ∧
    (∃ st2 d2 s2,
      ResourceManager.moveAssignDistinct st dest src = some (st2, d2, s2) ∧
      st2.stats = st.stats ∧ st2.heap.mem pd = none) := by
  have hlfree : lst.heap.free (some lpd) =
      some ⟨Function.update lst.heap.mem lpd none, lst.heap.next⟩ :=
    Heap.free_of_mem lst.heap lpd lblkd hlmd
  have hlread : Heap.readBlock
      ⟨Function.update lst.heap.mem lpd none, lst.heap.next⟩
      (some lp) lsrc.size = some (lblk.take lsrc.size) := by
    simp [Heap.readBlock, Function.update_noteq hlne, hlms, hlsz,
      Nat.pos_iff_ne_zero.mp hlpos]
  have hfree : st.heap.free (some pd) =
      some ⟨Function.update st.heap.mem pd none, st.heap.next⟩ :=
    Heap.free_of_mem st.heap pd blkd hmd
  have hread : Heap.readBlock
      ⟨Function.update st.heap.mem pd none, st.heap.next⟩
      (some p) src.size = some (blk.take src.size) := by
    simp [Heap.readBlock, Function.update_noteq hne, hms, hsz,
      Nat.pos_iff_ne_zero.mp hpos]
  refine ⟨?_, ?_, ?_, ?_⟩
  · refine ⟨⟨(Heap.alloc ⟨Function.update lst.heap.mem lpd none,
      lst.heap.next⟩ (lblk.take lsrc.size)).1,
      ⟨lst.stats.copy_count + 1, lst.stats.move_count⟩⟩,
      ⟨some lst.heap.next, lsrc.size⟩, ?_, rfl, rfl, ?_⟩
    · rw [LargeBuffer.copyAssignDistinct, hld, hlfree]
      simp only [hls, hlread]
      rfl
    · simp [Heap.alloc, Function.update_noteq (Nat.ne_of_lt hlpdlt)]
  · refine ⟨⟨⟨Function.update lst.heap.mem lpd none, lst.heap.next⟩,
      ⟨lst.stats.copy_count, lst.stats.move_count + 1⟩⟩,
      ⟨lsrc.data, lsrc.size⟩, ⟨none, 0⟩, ?_, rfl, rfl, ?_⟩
    · rw [LargeBuffer.moveAssignDistinct, hld, hlfree]
    · simp
  · refine ⟨⟨(Heap.alloc ⟨Function.update st.heap.mem pd none,
      st.heap.next⟩ (blk.take src.size)).1, st.stats⟩,
      ⟨some st.heap.next, src.size⟩, ?_, rfl, ?_⟩
    · rw [ResourceManager.copyAssignDistinct, hd, hfree]
      simp only [if_pos hpos, hs, hread]
      rfl
    · simp [Heap.alloc, Function.update_noteq (Nat.ne_of_lt hpdlt)]
  · refine ⟨⟨⟨Function.update st.heap.mem pd none, st.heap.next⟩,
      st.stats⟩, ⟨src.data, src.size⟩, ⟨none, 0⟩, ?_, rfl, ?_⟩
    · rw [ResourceManager.moveAssignDistinct, hd, hfree]
    · simp

/-- C9 witness: two length-1 `LargeBuffer`s and two length-1
`ResourceManager`s on concrete heaps; assignment in both directions is
exercised at slots 0 and 1. -/
theorem c9_witness :
    (∃ st2 d2,
      LargeBuffer.copyAssignDistinct
        (LargeBuffer.create (LargeBuffer.create ⟨Heap.empty, ⟨0, 0⟩⟩ 1).1
          1).1
        (LargeBuffer.create (LargeBuffer.create ⟨Heap.empty, ⟨0, 0⟩⟩ 1).1
          1).2
        (LargeBuffer.create ⟨Heap.empty, ⟨0, 0⟩⟩ 1).2 = some (st2, d2) ∧
      st2.stats.copy_count =
        (LargeBuffer.create (LargeBuffer.create ⟨Heap.empty, ⟨0, 0⟩⟩ 1).1
          1).1.stats.copy_count + 1 ∧
      st2.stats.move_count =
        (LargeBuffer.create (LargeBuffer.create ⟨Heap.empty, ⟨0, 0⟩⟩ 1).1
          1).1.stats.move_count ∧
      st2.heap.mem 1 = none) ∧
    (∃ st2 d2 s2,
      LargeBuffer.moveAssignDistinct
        (LargeBuffer.create (LargeBuffer.create ⟨Heap.empty, ⟨0, 0⟩⟩ 1).1
          1).1
        (LargeBuffer.create (LargeBuffer.create ⟨Heap.empty, ⟨0, 0⟩⟩ 1).1
          1).2
        (LargeBuffer.create ⟨Heap.empty, ⟨0, 0⟩⟩ 1).2 =
        some (st2, d2, s2) ∧
      st2.stats.move_count =
        (LargeBuffer.create (LargeBuffer.create ⟨Heap.empty, ⟨0, 0⟩⟩ 1).1
          1).1.stats.move_count + 1 ∧
      st2.stats.copy_count =
        (LargeBuffer.create (LargeBuffer.create ⟨Heap.empty, ⟨0, 0⟩⟩ 1).1
          1).1.stats.copy_count ∧
      st2.heap.mem 1 = none) ∧
    (∃ st2 d2,
      ResourceManager.copyAssignDistinct
        (ResourceManager.create
          (ResourceManager.create ⟨Heap.empty, RMStats.zero⟩ 1).1 1).1
        (ResourceManager.create
          (ResourceManager.create ⟨Heap.empty, RMStats.zero⟩ 1).1 1).2
        (ResourceManager.create ⟨Heap.empty, RMStats.zero⟩ 1).2 =
        some (st2, d2) ∧
      st2.stats =
        (ResourceManager.create
          (ResourceManager.create ⟨Heap.empty, RMStats.zero⟩ 1).1
          1).1.stats ∧
      st2.heap.mem 1 = none) ∧
    (∃ st2 d2 s2,
      ResourceManager.moveAssignDistinct
        (ResourceManager.create
          (ResourceManager.create ⟨Heap.empty, RMStats.zero⟩ 1).1 1).1
        (ResourceManager.create
          (ResourceManager.create ⟨Heap.empty, RMStats.zero⟩ 1).1 1).2
        (ResourceManager.create ⟨Heap.empty, RMStats.zero⟩ 1).2 =
        some (st2, d2, s2) ∧
      st2.stats =
        (ResourceManager.create
          (ResourceManager.create ⟨Heap.empty, RMStats.zero⟩ 1).1
          1).1.stats ∧
      st2.heap.mem 1 = none) :=
  c9_amended_assignment_counters
    (LargeBuffer.create (LargeBuffer.create ⟨Heap.empty, ⟨0, 0⟩⟩ 1).1 1).1
    (LargeBuffer.create (LargeBuffer.create ⟨Heap.empty, ⟨0, 0⟩⟩ 1).1 1).2
    (LargeBuffer.create ⟨Heap.empty, ⟨0, 0⟩⟩ 1).2
    1 0 (List.replicate 1 (some 0)) (List.replicate 1 (some 0))
    rfl rfl (by decide) rfl rfl (by decide) (by decide) (by decide)
    (ResourceManager.create
      (ResourceManager.create ⟨Heap.empty, RMStats.zero⟩ 1).1 1).1
    (ResourceManager.create
      (ResourceManager.create ⟨Heap.empty, RMStats.zero⟩ 1).1 1).2
    (ResourceManager.create ⟨Heap.empty, RMStats.zero⟩ 1).2
    1 0 (List.replicate 1 (some 0)) (List.replicate 1 (some 0))
    rfl rfl (by decide) rfl rfl (by decide) (by decide) (by decide)

/-- C10 counterexample: `LargeBuffer` created with length 0 does not hold
"no buffer" — its constructor runs `new int[0]` unconditionally, so the
object's pointer is non-null and a zero-length block is live on the heap. -/
theorem c10_counterexample :
    (LargeBuffer.create ⟨Heap.empty, ⟨0, 0⟩⟩ 0).2.size = 0 ∧
    (LargeBuffer.create ⟨Heap.empty, ⟨0, 0⟩⟩ 0).2.data ≠ none ∧
    (LargeBuffer.create ⟨Heap.empty, ⟨0, 0⟩⟩ 0).1.heap.mem 0 = some [] := by
  refine ⟨rfl, ?_, ?_⟩ <;> decide

/-- C10 amended: `create(n)` always succeeds and returns a buffer of length
exactly `n` whose `n` cells are all zero; for `ResourceManager`, `n = 0`
yields the empty/owning-nothing state (null pointer) and `n > 0` yields a
live zero-filled block; `LargeBuffer`, however, allocates unconditionally,
so even at `n = 0` it holds a (zero-length) live block — non-null pointer —
and at `n > 0` a zero-filled block of length `n`. -/
theorem c10_amended_create (st : RMState) (lst : LBState) (n : Nat) :
    (ResourceManager.create st n).2.size = n ∧
    (0 < n → (ResourceManager.create st n).2.data = some st.heap.next ∧
      (ResourceManager.create st n).1.heap.mem st.heap.next =
        some (List.replicate n (some 0))) ∧
    (n = 0 → (ResourceManager.create st n).2.data = none) ∧
    (LargeBuffer.create lst n).2.size = n ∧
    (LargeBuffer.create lst n).2.data = some lst.heap.next ∧
    (LargeBuffer.create lst n).1.heap.mem lst.heap.next =
      some (List.replicate n (some 0)) := by
  refine ⟨?_, ?_, ?_, rfl, rfl, ?_⟩
  · by_cases hn : 0 < n <;>
      simp [ResourceManager.create, hn]
  · intro hn
    constructor <;> simp [ResourceManager.create, hn, Heap.alloc]
  · intro hn
    subst hn
    simp [ResourceManager.create]
  · simp [LargeBuffer.create, Heap.alloc]

/-- C10 witness: creation at lengths 2 and 0 on concrete states. -/
theorem c10_witness :
    ((ResourceManager.create ⟨Heap.empty, RMStats.zero⟩ 2).2.size = 2 ∧
      (0 < 2 →
        (ResourceManager.create ⟨Heap.empty, RMStats.zero⟩ 2).2.data =
          some Heap.empty.next ∧
        (ResourceManager.create ⟨Heap.empty,
          RMStats.zero⟩ 2).1.heap.mem Heap.empty.next =
          some (List.replicate 2 (some 0))) ∧
      (2 = 0 →
        (ResourceManager.create ⟨Heap.empty, RMStats.zero⟩ 2).2.data =
          none) ∧
      (LargeBuffer.create ⟨Heap.empty, ⟨0, 0⟩⟩ 2).2.size = 2 ∧
      (LargeBuffer.create ⟨Heap.empty, ⟨0, 0⟩⟩ 2).2.data =
        some Heap.empty.next ∧
      (LargeBuffer.create ⟨Heap.empty, ⟨0, 0⟩⟩ 2).1.heap.mem
        Heap.empty.next = some (List.replicate 2 (some 0))) ∧
    ((ResourceManager.create ⟨Heap.empty, RMStats.zero⟩ 0).2.size = 0 ∧
      (0 < 0 →
        (ResourceManager.create ⟨Heap.empty, RMStats.zero⟩ 0).2.data =
          some Heap.empty.next ∧
        (ResourceManager.create ⟨Heap.empty,
          RMStats.zero⟩ 0).1.heap.mem Heap.empty.next =
          some (List.replicate 0 (some 0))) ∧
      (0 = 0 →
        (ResourceManager.create ⟨Heap.empty, RMStats.zero⟩ 0).2.data =
          none) ∧
      (LargeBuffer.create ⟨Heap.empty, ⟨0, 0⟩⟩ 0).2.size = 0 ∧
      (LargeBuffer.create ⟨Heap.empty, ⟨0, 0⟩⟩ 0).2.data =
        some Heap.empty.next ∧
      (LargeBuffer.create ⟨Heap.empty, ⟨0, 0⟩⟩ 0).1.heap.mem
        Heap.empty.next = some (List.replicate 0 (some 0))) :=
  ⟨c10_amended_create ⟨Heap.empty, RMStats.zero⟩ ⟨Heap.empty, ⟨0, 0⟩⟩ 2,
    c10_amended_create ⟨Heap.empty, RMStats.zero⟩ ⟨Heap.empty, ⟨0, 0⟩⟩ 0⟩

/-- Duplicating a reference `k` times adds `k` to the reference count and
never moves the instance counter. -/
theorem SharedSt.dupRef_iterate (k : Nat) : ∀ st : SharedSt,
    SharedSt.dupRef^[k] st = ⟨st.instance_count, st.use_count + k⟩ := by
  induction k with
  | zero => intro st; rfl
  | succ k ih =>
    intro st
    rw [Function.iterate_succ_apply, ih]
    simp [SharedSt.dupRef, SharedSt.mk.injEq]
    omega

/-- Releasing fewer references than are held subtracts from the reference
count and never moves the instance counter. -/
theorem SharedSt.releaseRef_iterate (j : Nat) : ∀ st : SharedSt,
    j < st.use_count →
    SharedSt.releaseRef^[j] st = ⟨st.instance_count, st.use_count - j⟩ := by
  induction j with
  | zero => intro st _; rfl
  | succ j ih =>
    intro st h
    rw [Function.iterate_succ_apply]
    have hrel : SharedSt.releaseRef st =
        ⟨st.instance_count, st.use_count - 1⟩ := by
      unfold SharedSt.releaseRef
      rw [if_neg (by omega), if_neg (by omega)]
    rw [hrel, ih ⟨st.instance_count, st.use_count - 1⟩ (by simp; omega)]
    simp [SharedSt.mk.injEq]
    omega

/-- C4: starting from a shared resource created with one reference (the
live-instance counter having been incremented to `n + 1`), duplicating the
reference `k` times leaves the instance counter at `n + 1` while the
reference count becomes `k + 1`; releasing any `j ≤ k` of the references
still leaves the instance counter at `n + 1`; and releasing all `k + 1`
references drops the instance counter by exactly one, back to `n`. -/
theorem c4_shared_instance_count (n : Int) (k j : Nat) (hj : j ≤ k) :
    (SharedSt.dupRef^[k] (SharedSt.createShared n)).instance_count = n + 1 ∧
    (SharedSt.dupRef^[k] (SharedSt.createShared n)).use_count = k + 1 ∧
    (SharedSt.releaseRef^[j]
      (SharedSt.dupRef^[k] (SharedSt.createShared n))).instance_count =
      n + 1 ∧
    SharedSt.releaseRef^[k + 1]
      (SharedSt.dupRef^[k] (SharedSt.createShared n)) = ⟨n, 0⟩ := by
  have hdup : SharedSt.dupRef^[k] (SharedSt.createShared n) =
      ⟨n + 1, k + 1⟩ := by
    rw [SharedSt.dupRef_iterate k (SharedSt.createShared n)]
    simp [SharedSt.createShared, SharedSt.mk.injEq]
    omega
  refine ⟨by rw [hdup], by rw [hdup], ?_, ?_⟩
  · rw [hdup, SharedSt.releaseRef_iterate j ⟨n + 1, k + 1⟩ (by simp; omega)]
  · rw [hdup, Function.iterate_succ_apply',
      SharedSt.releaseRef_iterate k ⟨n + 1, k + 1⟩ (by simp)]
    have h1 : (k : Nat) + 1 - k = 1 := by omega
    rw [h1]
    unfold SharedSt.releaseRef
    simp

/-- C4 witness: instance counter starting at 5, three duplications,
one interior release, then the rest. -/
theorem c4_witness :
    (1 ≤ 3) ∧
    ((SharedSt.dupRef^[3] (SharedSt.createShared 5)).instance_count =
      5 + 1 ∧
    (SharedSt.dupRef^[3] (SharedSt.createShared 5)).use_count = 3 + 1 ∧
    (SharedSt.releaseRef^[1]
      (SharedSt.dupRef^[3] (SharedSt.createShared 5))).instance_count =
      5 + 1 ∧
    SharedSt.releaseRef^[3 + 1]
      (SharedSt.dupRef^[3] (SharedSt.createShared 5)) = ⟨5, 0⟩) :=
  ⟨by decide, c4_shared_instance_count 5 3 1 (by decide)⟩

/-- Every operation of the exclusive-handle capability set preserves the
single-valid-handle invariant. -/
theorem HandleSt.inv_step (st : HandleSt) (hst : st.Inv) (op : HandleOp) :
    (st.step op).Inv := by
  obtain ⟨huniq, hbound⟩ := hst
  cases op with
  | acquire =>
    constructor
    · intro i j a hi hj
      rw [HandleSt.step] at hi hj
      simp only [Function.update_apply] at hi hj
      by_cases hi0 : i = st.next_slot <;> by_cases hj0 : j = st.next_slot
      · rw [hi0, hj0]
      · rw [if_pos hi0] at hi
        rw [if_neg hj0] at hj
        injection hi with hi
        exact absurd (hbound j a hj) (by omega)
      · rw [if_neg hi0] at hi
        rw [if_pos hj0] at hj
        injection hj with hj
        exact absurd (hbound i a hi) (by omega)
      · rw [if_neg hi0] at hi
        rw [if_neg hj0] at hj
        exact huniq i j a hi hj
    · intro i a hi
      rw [HandleSt.step] at hi
      simp only [Function.update_apply] at hi
      show a < st.next_acq + 1
      by_cases hi0 : i = st.next_slot
      · rw [if_pos hi0] at hi
        injection hi with hi
        omega
      · rw [if_neg hi0] at hi
        exact Nat.lt_succ_of_lt (hbound i a hi)
  | move_new i0 =>
    by_cases hlt : i0 < st.next_slot
    · constructor
      · intro i j a hi hj
        rw [HandleSt.step, if_pos hlt] at hi hj
        simp only [Function.update_apply] at hi hj
        by_cases hi0 : i = st.next_slot <;> by_cases hj0 : j = st.next_slot
        · rw [hi0, hj0]
        · rw [if_pos hi0] at hi
          rw [if_neg hj0] at hj
          by_cases hji : j = i0
          · rw [if_pos hji] at hj
            cases hj
          · rw [if_neg hji] at hj
            exact absurd (huniq i0 j a hi hj) (Ne.symm hji)
        · rw [if_neg hi0] at hi
          rw [if_pos hj0] at hj
          by_cases hii : i = i0
          · rw [if_pos hii] at hi
            cases hi
          · rw [if_neg hii] at hi
            exact absurd (huniq i0 i a hj hi) (fun h => hii h.symm)
        · rw [if_neg hi0] at hi
          rw [if_neg hj0] at hj
          by_cases hii : i = i0
          · rw [if_pos hii] at hi
            cases hi
          · by_cases hji : j = i0
            · rw [if_pos hji] at hj
              cases hj
            · rw [if_neg hii] at hi
              rw [if_neg hji] at hj
              exact huniq i j a hi hj
      · intro i a hi
        rw [HandleSt.step, if_pos hlt] at hi ⊢
        simp only [Function.update_apply] at hi
        by_cases hi0 : i = st.next_slot
        · rw [if_pos hi0] at hi
          exact hbound i0 a hi
        · rw [if_neg hi0] at hi
          by_cases hii : i = i0
          · rw [if_pos hii] at hi
            cases hi
          · rw [if_neg hii] at hi
            exact hbound i a hi
    · rw [HandleSt.step, if_neg hlt]
      exact ⟨huniq, hbound⟩
  | move_assign i0 j0 =>
    by_cases heq : i0 = j0
    · rw [HandleSt.step, if_pos heq]
      exact ⟨huniq, hbound⟩
    · by_cases hlt : i0 < st.next_slot ∧ j0 < st.next_slot
      · constructor
        · intro i j a hi hj
          rw [HandleSt.step, if_neg heq, if_pos hlt] at hi hj
          simp only [Function.update_apply] at hi hj
          by_cases hij0 : i = j0
          · rw [if_pos hij0] at hi
            cases hi
          · by_cases hjj0 : j = j0
            · rw [if_pos hjj0] at hj
              cases hj
            · rw [if_neg hij0] at hi
              rw [if_neg hjj0] at hj
              by_cases hii : i = i0 <;> by_cases hji : j = i0
              · rw [hii, hji]
              · rw [if_pos hii] at hi
                rw [if_neg hji] at hj
                exact absurd (huniq j0 j a hi hj) (Ne.symm hjj0)
              · rw [if_neg hii] at hi
                rw [if_pos hji] at hj
                exact absurd (huniq i j0 a hi hj) hij0
              · rw [if_neg hii] at hi
                rw [if_neg hji] at hj
                exact huniq i j a hi hj
        · intro i a hi
          rw [HandleSt.step, if_neg heq, if_pos hlt] at hi ⊢
          simp only [Function.update_apply] at hi
          by_cases hij0 : i = j0
          · rw [if_pos hij0] at hi
            cases hi
          · rw [if_neg hij0] at hi
            by_cases hii : i = i0
            · rw [if_pos hii] at hi
              exact hbound j0 a hi
            · rw [if_neg hii] at hi
              exact hbound i a hi
      · rw [HandleSt.step, if_neg heq, if_neg hlt]
        exact ⟨huniq, hbound⟩
  | release i0 =>
    constructor
    · intro i j a hi hj
      rw [HandleSt.step] at hi hj
      simp only [Function.update_apply] at hi hj
      by_cases hii : i = i0
      · rw [if_pos hii] at hi
        cases hi
      · by_cases hji : j = i0
        · rw [if_pos hji] at hj
          cases hj
        · rw [if_neg hii] at hi
          rw [if_neg hji] at hj
          exact huniq i j a hi hj
    · intro i a hi
      rw [HandleSt.step] at hi
      simp only [Function.update_apply] at hi
      show a < st.next_acq
      by_cases hii : i = i0
      · rw [if_pos hii] at hi
        cases hi
      · rw [if_neg hii] at hi
        exact hbound i a hi

/-- Every reachable state of the exclusive-handle machine satisfies the
invariant. -/
theorem HandleSt.inv_run (ops : List HandleOp) : (HandleSt.run ops).Inv := by
  have hinit : HandleSt.init.Inv := by
    constructor
    · intro i j a hi _
      cases hi
    · intro i a hi
      cases hi
  rw [HandleSt.run]
  generalize HandleSt.init = st0 at hinit ⊢
  induction ops generalizing st0 with
  | nil => exact hinit
  | cons op ops ih => exact ih _ (HandleSt.inv_step st0 hinit op)

/-- C6: along every sequence of exclusive-handle operations (acquire,
move-construct, move-assign, release — the capability set contains no
duplication, mirroring the deleted copy operations of `MoveOnlyResource`
and `FileGuard`), no reachable state holds two valid handles for the same
acquisition: two slots valid for one acquisition are the same slot. -/
theorem c6_at_most_one_valid_handle (ops : List HandleOp) (i j a : Nat)
    (hi : (HandleSt.run ops).objs i = some a)
    (hj : (HandleSt.run ops).objs j = some a) : i = j :=
  (HandleSt.inv_run ops).1 i j a hi hj

/-- C6 witness: after one acquisition followed by a transfer into a fresh
handle, slot 1 is the unique valid slot for acquisition 0. -/
theorem c6_witness :
    (HandleSt.run [HandleOp.acquire, HandleOp.move_new 0]).objs 1 =
      some 0 ∧ (1 : Nat) = 1 :=
  ⟨by simp [HandleSt.run, HandleSt.init, HandleSt.step, Function.update],
    c6_at_most_one_valid_handle [HandleOp.acquire, HandleOp.move_new 0] 1 1 0
      (by simp [HandleSt.run, HandleSt.init, HandleSt.step, Function.update])
      (by simp [HandleSt.run, HandleSt.init, HandleSt.step,
        Function.update])⟩

/-- C7: self-assignment — copy assignment or move assignment of an object
to itself — is a complete no-op thanks to the `this != &other` guard: the
object store, the heap and the counters are all unchanged, so in particular
the object's own storage is never released.  Shown for `LargeBuffer` and
for `ResourceManager`. -/
theorem c7_self_assignment_noop (e : LBEnv) (re : RMEnv) (i j : Nat) :
    LBEnv.copyAssign e i i = some e ∧ LBEnv.moveAssign e i i = some e ∧
    RMEnv.copyAssign re j j = some re ∧ RMEnv.moveAssign re j j = some re :=
  ⟨by simp [LBEnv.copyAssign], by simp [LBEnv.moveAssign],
    by simp [RMEnv.copyAssign], by simp [RMEnv.moveAssign]⟩

/-- C2: operating on a moved-from instance is safe, and owned storage is
released exactly once per lifetime.  In order: a transfer leaves its source
in the canonical moved-from state `⟨none, 0⟩`; filling a moved-from buffer
succeeds and changes nothing; duplicating a moved-from buffer succeeds;
destroying a moved-from `LargeBuffer` or `ResourceManager` succeeds and
releases no storage (the heap is untouched); after a transfer the full
two-destructor sequence succeeds — the moved-from source's destructor
releases nothing and the destination's destructor then frees the block,
exactly once, without a double free; and `FileGuard`'s release is
idempotent — the second `close` performs zero release actions, as does
closing a moved-from guard. -/
theorem c2_moved_from_safe_release_once
    (st : LBState) (v : Int) (rst : RMState)
    (a : LargeBuffer) (p : Nat) (blk : Block)
    (hp : a.data = some p) (hblk : st.heap.mem p = some blk)
    (g : FileGuard) :
    (LargeBuffer.moveCtor st a).2.2 = ⟨none, 0⟩ ∧
    LargeBuffer.fill st ⟨none, 0⟩ v = some st ∧
    (LargeBuffer.copyCtor st ⟨none, 0⟩).isSome = true ∧
    LargeBuffer.destroy st ⟨none, 0⟩ = some ⟨st.heap, st.stats⟩ ∧
    ResourceManager.destroy rst ⟨none, 0⟩ =
      some ⟨rst.heap,
        { rst.stats with destructions := rst.stats.destructions + 1 }⟩ ∧
    LargeBuffer.destroy (LargeBuffer.moveCtor st a).1
      (LargeBuffer.moveCtor st a).2.2 =
      some ⟨st.heap, (LargeBuffer.moveCtor st a).1.stats⟩ ∧
    (∃ st2, LargeBuffer.destroy ⟨st.heap, (LargeBuffer.moveCtor st a).1.stats⟩
        (LargeBuffer.moveCtor st a).2.1 = some st2 ∧
      st2.heap.mem p = none ∧
      ∀ q, q ≠ p → st2.heap.mem q = st.heap.mem q) ∧
    (g.close.1).close = (g.close.1, 0) ∧
    ((FileGuard.moveCtor g).2).close = ((FileGuard.moveCtor g).2, 0) := by
  refine ⟨rfl, ?_, ?_, ?_, ?_, ?_, ?_, ?_, ?_⟩
  · simp [LargeBuffer.fill, Heap.writeFill]
  · simp [LargeBuffer.copyCtor, Heap.readBlock]
  · simp [LargeBuffer.destroy, Heap.free]
  · simp [ResourceManager.destroy, Heap.free]
  · simp [LargeBuffer.destroy, LargeBuffer.moveCtor, Heap.free]
  · refine ⟨⟨⟨Function.update st.heap.mem p none, st.heap.next⟩,
      (LargeBuffer.moveCtor st a).1.stats⟩, ?_, ?_, ?_⟩
    · simp only [LargeBuffer.destroy, LargeBuffer.moveCtor, hp,
        Heap.free_of_mem st.heap p blk hblk]
    · simp
    · intro q hq
      simp [Function.update_noteq hq]
  · cases hgo : g.is_open <;> simp [FileGuard.close, hgo]
  · simp [FileGuard.moveCtor, FileGuard.close]

/-- C2 witness: a length-2 buffer created on the empty heap is
transferred and both resulting objects are destroyed. -/
theorem c2_witness :
    ((LargeBuffer.create ⟨Heap.empty, ⟨0, 0⟩⟩ 2).2.data = some 0 ∧
      (LargeBuffer.create ⟨Heap.empty, ⟨0, 0⟩⟩ 2).1.heap.mem 0 =
        some (List.replicate 2 (some 0))) ∧
    ((LargeBuffer.moveCtor (LargeBuffer.create ⟨Heap.empty, ⟨0, 0⟩⟩ 2).1
        (LargeBuffer.create ⟨Heap.empty, ⟨0, 0⟩⟩ 2).2).2.2 =
      (⟨none, 0⟩ : LargeBuffer) ∧
      LargeBuffer.destroy
        (LargeBuffer.create ⟨Heap.empty, ⟨0, 0⟩⟩ 2).1 ⟨none, 0⟩ =
        some ⟨(LargeBuffer.create ⟨Heap.empty, ⟨0, 0⟩⟩ 2).1.heap,
          (LargeBuffer.create ⟨Heap.empty, ⟨0, 0⟩⟩ 2).1.stats⟩ ∧
      ((FileGuard.acquire "w").close.1).close =
        ((FileGuard.acquire "w").close.1, 0)) := by
  refine ⟨⟨rfl, rfl⟩, ?_, ?_, ?_⟩
  · exact (c2_moved_from_safe_release_once
      (LargeBuffer.create ⟨Heap.empty, ⟨0, 0⟩⟩ 2).1 0
      ⟨Heap.empty, RMStats.zero⟩
      (LargeBuffer.create ⟨Heap.empty, ⟨0, 0⟩⟩ 2).2 0
      (List.replicate 2 (some 0)) rfl rfl (FileGuard.acquire "w")).1
  · exact (c2_moved_from_safe_release_once
      (LargeBuffer.create ⟨Heap.empty, ⟨0, 0⟩⟩ 2).1 0
      ⟨Heap.empty, RMStats.zero⟩
      (LargeBuffer.create ⟨Heap.empty, ⟨0, 0⟩⟩ 2).2 0
      (List.replicate 2 (some 0)) rfl rfl
      (FileGuard.acquire "w")).2.2.2.1
  · exact (c2_moved_from_safe_release_once
      (LargeBuffer.create ⟨Heap.empty, ⟨0, 0⟩⟩ 2).1 0
      ⟨Heap.empty, RMStats.zero⟩
      (LargeBuffer.create ⟨Heap.empty, ⟨0, 0⟩⟩ 2).2 0
      (List.replicate 2 (some 0)) rfl rfl
      (FileGuard.acquire "w")).2.2.2.2.2.2.2.1

end Ferric
